import Mathlib

/-!
# Pushy notification server: payload construction and send-with-retry

A shallow embedding of `src/server/pushyme_notification_server.go`.

* The Go map `map[string]interface{}` is an association list with unique
  keys (`JsonMap`), written by `JsonMap.assign` (Go: `m[k] = v`).
* The outside world is explicit state (`World`): the list of HTTP POSTs
  performed so far and the lines handed to the logger.
* The HTTP client is a function of the POSTs already made and the current
  one (`Gateway`), so that every sequence of gateway outcomes is covered.
* Library functions that are not part of the repository (`emoji.Sprint`,
  the byte rendering of `json.Marshal`, `json.Unmarshal`) are parameters
  (`Env`).
* Go `int` values are `Int`; the only arithmetic is `time++` below `times`,
  which cannot overflow.
* `defer resp.Body.Close()` releases a connection and is not modelled.
-/

namespace PushProxy

/-! ## Data model -/

/-- A value stored in the payload map (`interface{}` holding a string, an
integer or a boolean: the only dynamic types the server stores). -/
inductive Value where
  | str (s : String)
  | int (n : Int)
  | bool (b : Bool)
  deriving DecidableEq, Repr

/-- Go `map[string]interface{}`: an association list in which every key occurs
at most once. -/
structure JsonMap where
  entries : List (String × Value)
  deriving DecidableEq, Repr

namespace JsonMap

/-- The empty map literal. -/
def empty : JsonMap := ⟨[]⟩

/-- Go `m[k] = v` on the entry list: replace the value of an existing key, or
add the key. -/
def assignEntries (k : String) (v : Value) :
    List (String × Value) → List (String × Value)
  | [] => [(k, v)]
  | (k1, v1) :: rest =>
    if k1 = k then (k, v) :: rest else (k1, v1) :: assignEntries k v rest

/-- Go `m[k] = v`. -/
def assign (m : JsonMap) (k : String) (v : Value) : JsonMap :=
  ⟨assignEntries k v m.entries⟩

/-- Lookup on the entry list. -/
def lookupEntries (k : String) : List (String × Value) → Option Value
  | [] => none
  | (k1, v1) :: rest => if k1 = k then some v1 else lookupEntries k rest

/-- Go `v, ok := m[k]`. -/
def lookup (m : JsonMap) (k : String) : Option Value :=
  lookupEntries k m.entries

/-- The keys of the map. -/
def keys (m : JsonMap) : List String :=
  m.entries.map Prod.fst

end JsonMap

/-- Modelled from the spec: the declaration of `PushNotification` is not among
the sources; the fields are the ones `SendNotification` reads. `Badge` is
compared with `-1`, `RootID` and `Type` with strings, `IsIDLoaded` is a
condition; the identifiers and display fields are strings. The Go field
`Type` is written `Type_`. -/
structure PushNotification where
  AckID : String
  ServerID : String
  DeviceID : String
  PostID : String
  Message : String
  Badge : Int
  TeamID : String
  ChannelID : String
  RootID : String
  ChannelName : String
  Type_ : String
  SenderID : String
  SenderName : String
  OverrideUsername : String
  OverrideIconURL : String
  FromWebhook : String
  Version : String
  IsCRTEnabled : Bool
  IsIDLoaded : Bool
  deriving DecidableEq, Repr

/-- Modelled from the spec: the constant `PushTypeMessage` is declared outside
the sources; the spec gives the type name "message". -/
def PushTypeMessage : String := "message"

/-- Modelled from the spec: the constant `PushTypeSession` is declared outside
the sources; the spec gives the type name "session". -/
def PushTypeSession : String := "session"

/-- Modelled from the spec: the declaration of `PushyPushSettings` is not among
the sources; the fields are the ones of the spec's DispatchSettings. -/
structure PushyPushSettings where
  Enable : Bool
  SecretAPIKey : String
  MaxConns : Int
  IdleConnTimeout : Int
  ReplaceForType : String
  deriving DecidableEq, Repr

/-- The wire request: `to` and `data`. -/
structure PushyPayload where
  DeviceId : String
  Body : JsonMap
  deriving DecidableEq, Repr

structure PushyResponseInfo where
  Devices : Int
  deriving DecidableEq, Repr

/-- The wire reply. -/
structure PushyResponse where
  Succ : Bool
  Id : String
  Info : PushyResponseInfo
  deriving DecidableEq, Repr

/-- Go zero value of `PushyResponse` (`var r PushyResponse`). -/
def PushyResponse.zero : PushyResponse := ⟨false, "", ⟨0⟩⟩

/-- Modelled from the spec: `PushResponse` and its two constructors are
declared outside the sources; the spec describes the result as success, or
failure tagged with a human-readable reason. -/
inductive PushResponse where
  | ok
  | fail (reason : String)
  deriving DecidableEq, Repr

/-- Modelled from the spec: the success result. -/
def NewOkPushResponse : PushResponse := PushResponse.ok

/-- Modelled from the spec: the failure result tagged with a reason. -/
def NewErrorPushResponse (message : String) : PushResponse :=
  PushResponse.fail message

/-! ## The world: HTTP POSTs and log lines -/

abbrev Bytes := List UInt8

/-- One call of `Client.Post(url, contentType, body)`. -/
structure PostCall where
  url : String
  contentType : String
  body : Bytes
  deriving DecidableEq, Repr

inductive LogLevel where
  | info
  | error
  deriving DecidableEq, Repr

/-- A line handed to the logger: level and format string (the rendering of the
arguments is not modelled). -/
structure LogLine where
  level : LogLevel
  format : String
  deriving DecidableEq, Repr

/-- The observable effects so far. -/
structure World where
  posts : List PostCall
  logs : List LogLine
  deriving DecidableEq, Repr

/-- The behaviour of the HTTP client and the gateway behind it: given the POSTs
already performed and the current one, either a transport error or the bytes
that `io.ReadAll` obtains from the response body. -/
abbrev Gateway := List PostCall → PostCall → Except String Bytes

/-- Library functions used by the server. -/
structure Env where
  /-- The function `emoji.Sprint` on one string argument. -/
  emojiSprint : String → String
  /-- The bytes `json.Marshal` produces for a payload. -/
  jsonEncode : PushyPayload → Bytes
  /-- The call `json.Unmarshal(body, &r)`: the value of `r` afterwards (its error result
  is discarded by the caller). -/
  jsonUnmarshal : Bytes → PushyResponse → PushyResponse

/-- The dispatcher (`logger` and `metrics` are effects of the world). -/
structure PushyNotificationServer where
  PushyPushSettings : PushyPushSettings
  Client : Gateway

/-- Append a line to the log. -/
def World.log (w : World) (level : LogLevel) (format : String) : World :=
  { w with logs := w.logs ++ [⟨level, format⟩] }

/-- The call `me.Client.Post(url, contentType, body)`: records the POST and
returns what the gateway answers. -/
def clientPost (me : PushyNotificationServer) (w : World)
    (url contentType : String) (body : Bytes) : World × Except String Bytes :=
  let call : PostCall := ⟨url, contentType, body⟩
  ({ w with posts := w.posts ++ [call] }, me.Client w.posts call)

/-- The call `json.Marshal(pl)`: the encoder reports an error only for value types it
cannot represent (channels, functions, cyclic data, failing marshalers); a
payload holds strings, integers and booleans, so the error is `nil`. -/
def jsonMarshal (env : Env) (pl : PushyPayload) : Except String Bytes :=
  Except.ok (env.jsonEncode pl)

/-! ## Operations -/

/-- The method `PushyNotificationServer.Initialize`. -/
def Initialize (me : PushyNotificationServer) (w : World) : World × Bool :=
  let w1 := w.log LogLevel.info "Initializing Pushy notification server for %v"
  if me.PushyPushSettings.SecretAPIKey = "" then
    (w1.log LogLevel.error
      "Pushy push notifications not configured.  Missing SecretAPIKey.", false)
  else
    (w1, true)

/-- The request URL `fmt.Sprintf("https://api.pushy.me/push?api_key=%v", authKey)`. -/
def pushURL (authKey : String) : String :=
  "https://api.pushy.me/push?api_key=" ++ authKey

/-- The error returned when the loop of `sendAndRetry` runs out. -/
def retriesExhausted : String := "all retry times are used, error remains."

/-- The loop `for time := ...; time < times; time++` of `sendAndRetry`, entered
with the current value of `time`. The result is the returned `error`
(`none` for `nil`). -/
def sendAndRetryLoop (me : PushyNotificationServer) (env : Env) (data : Bytes)
    (times : Int) (time : Int) (w : World) : World × Option String :=
  if time < times then
    let authKey := me.PushyPushSettings.SecretAPIKey
    match clientPost me w (pushURL authKey) "application/json" data with
    | (w1, Except.error _) =>
      sendAndRetryLoop me env data times (time + 1)
        (w1.log LogLevel.error "Failed to send to pushy. time=%v, err=%v")
    | (w1, Except.ok body) =>
      let r := env.jsonUnmarshal body PushyResponse.zero
      if !r.Succ then
        sendAndRetryLoop me env data times (time + 1)
          (w1.log LogLevel.error "Failed to send to pushy( by response ). time=%v")
      else
        (w1, none)
  else
    (w, some retriesExhausted)
termination_by (times - time).toNat
decreasing_by all_goals (simp_wf; omega)

/-- The method `PushyNotificationServer.sendAndRetry`. -/
def sendAndRetry (me : PushyNotificationServer) (env : Env) (data : Bytes)
    (times : Int) (w : World) : World × Option String :=
  sendAndRetryLoop me env data times 1 w

/-- The payload built by `SendNotification` for an enabled dispatcher (the
statements from `pushType := msg.Type` to the `PushyPayload` literal). -/
def buildPayload (env : Env) (msg : PushNotification) : PushyPayload :=
  let pushType := msg.Type_
  let data := ((((((JsonMap.empty
    ).assign "ack_id" (Value.str msg.AckID)
    ).assign "type" (Value.str pushType)
    ).assign "version" (Value.str msg.Version)
    ).assign "channel_id" (Value.str msg.ChannelID)
    ).assign "is_crt_enabled" (Value.bool msg.IsCRTEnabled)
    ).assign "server_id" (Value.str msg.ServerID)
  let data := if msg.Badge ≠ -1 then data.assign "badge" (Value.int msg.Badge) else data
  let data := if msg.RootID ≠ "" then data.assign "root_id" (Value.str msg.RootID) else data
  let data :=
    if msg.IsIDLoaded then
      (((((data.assign "post_id" (Value.str msg.PostID)
        ).assign "message" (Value.str msg.Message)
        ).assign "id_loaded" (Value.bool true)
        ).assign "sender_id" (Value.str msg.SenderID)
        ).assign "sender_name" (Value.str "Someone")
        ).assign "team_id" (Value.str msg.TeamID)
    else if pushType = PushTypeMessage ∨ pushType = PushTypeSession then
      ((((((((data.assign "team_id" (Value.str msg.TeamID)
        ).assign "sender_id" (Value.str msg.SenderID)
        ).assign "sender_name" (Value.str msg.SenderName)
        ).assign "message" (Value.str (env.emojiSprint msg.Message))
        ).assign "channel_name" (Value.str msg.ChannelName)
        ).assign "post_id" (Value.str msg.PostID)
        ).assign "override_username" (Value.str msg.OverrideUsername)
        ).assign "override_icon_url" (Value.str msg.OverrideIconURL)
        ).assign "from_webhook" (Value.str msg.FromWebhook)
    else data
  { DeviceId := msg.DeviceID, Body := data }

/-- The method `PushyNotificationServer.SendNotification`. -/
def SendNotification (me : PushyNotificationServer) (env : Env)
    (msg : PushNotification) (w : World) : World × PushResponse :=
  if !me.PushyPushSettings.Enable then
    (w, NewOkPushResponse)
  else
    let pl := buildPayload env msg
    match jsonMarshal env pl with
    | Except.error _ =>
      (w.log LogLevel.error "Failed to convert to json. msg=%v",
        NewErrorPushResponse "failed to encode")
    | Except.ok plJson =>
      let w1 := w.log LogLevel.info
        "Sending pushy push notification for device=%v type=%v ackId=%v"
      match sendAndRetry me env plJson 2 w1 with
      | (w2, some _) =>
        (w2.log LogLevel.error "Failed to send to pushy. err=%v",
          NewErrorPushResponse "failed to send")
      | (w2, none) => (w2, NewOkPushResponse)

/-- Whether one attempt is a terminal success: the POST made after the POSTs
`history` gets a response whose decoded success flag is true. -/
def attemptSucceeds (me : PushyNotificationServer) (env : Env)
    (history : List PostCall) (call : PostCall) : Bool :=
  match me.Client history call with
  | Except.error _ => false
  | Except.ok body => (env.jsonUnmarshal body PushyResponse.zero).Succ

/-- The POST that `sendAndRetry` makes for the bytes `data`. -/
def pushCall (me : PushyNotificationServer) (data : Bytes) : PostCall :=
  ⟨pushURL me.PushyPushSettings.SecretAPIKey, "application/json", data⟩

/-! ## Sample inputs -/

/-- A stand-in for the emoji expansion: marks its argument. -/
def sampleEnv : Env :=
  { emojiSprint := fun s => s ++ "!"
    jsonEncode := fun pl => pl.DeviceId.toUTF8.toList
    jsonUnmarshal := fun body r => { r with Succ := decide (body = [1]) } }

/-- A message notification with a badge and no root post. -/
def sampleMessage : PushNotification :=
  { AckID := "ack1", ServerID := "srv1", DeviceID := "dev1", PostID := "post1",
    Message := "hello :smile:", Badge := 3, TeamID := "team1", ChannelID := "chan1",
    RootID := "", ChannelName := "town-square", Type_ := "message",
    SenderID := "user1", SenderName := "alice", OverrideUsername := "bot",
    OverrideIconURL := "http://icon", FromWebhook := "true", Version := "v2",
    IsCRTEnabled := true, IsIDLoaded := false }

/-- The same notification sent with pre-loaded content. -/
def sampleIdLoaded : PushNotification :=
  { sampleMessage with IsIDLoaded := true }

/-- A badge-clearing notification: type "clear", badge unset, with a root id. -/
def sampleClear : PushNotification :=
  { sampleMessage with Type_ := "clear", Badge := -1, RootID := "root1" }

/-- A gateway that accepts every push. -/
def gatewayOk : Gateway := fun _ _ => Except.ok [1]

/-- A gateway that cannot be reached. -/
def gatewayDown : Gateway := fun _ _ => Except.error "connection refused"

/-- A gateway that rejects the first push it sees and accepts later ones. -/
def gatewaySecond : Gateway := fun history _ =>
  if history.length = 0 then Except.ok [0] else Except.ok [1]

/-- An enabled dispatcher talking to the given gateway. -/
def sampleServer (gw : Gateway) : PushyNotificationServer :=
  { PushyPushSettings :=
      { Enable := true, SecretAPIKey := "key", MaxConns := 100,
        IdleConnTimeout := 90, ReplaceForType := "pushy" }
    Client := gw }

/-- A disabled dispatcher without a secret. -/
def sampleDisabled : PushyNotificationServer :=
  { PushyPushSettings :=
      { Enable := false, SecretAPIKey := "", MaxConns := 100,
        IdleConnTimeout := 90, ReplaceForType := "pushy" }
    Client := gatewayOk }

/-- The world before anything was sent or logged. -/
def emptyWorld : World := ⟨[], []⟩

/-! ## Lemmas on the payload map -/

theorem JsonMap.lookupEntries_assignEntries (k : String) (v : Value) (k2 : String)
    (l : List (String × Value)) :
    JsonMap.lookupEntries k2 (JsonMap.assignEntries k v l) =
      if k = k2 then some v else JsonMap.lookupEntries k2 l := by
  induction l with
  | nil => simp [JsonMap.assignEntries, JsonMap.lookupEntries]
  | cons hd tl ih =>
    obtain ⟨k1, v1⟩ := hd
    by_cases h1 : k1 = k
    · subst h1
      by_cases h2 : k1 = k2 <;> simp [JsonMap.assignEntries, JsonMap.lookupEntries, h2]
    · by_cases h2 : k1 = k2
      · subst h2
        simp [JsonMap.assignEntries, JsonMap.lookupEntries, h1, Ne.symm h1]
      · simp [JsonMap.assignEntries, JsonMap.lookupEntries, h1, h2, ih]

theorem JsonMap.lookup_assign (m : JsonMap) (k : String) (v : Value) (k2 : String) :
    (m.assign k v).lookup k2 = if k = k2 then some v else m.lookup k2 := by
  simp [JsonMap.assign, JsonMap.lookup, JsonMap.lookupEntries_assignEntries]

theorem JsonMap.lookup_empty (k : String) : JsonMap.empty.lookup k = none := rfl

theorem JsonMap.mem_keys_assignEntries (k : String) (v : Value) (k2 : String)
    (l : List (String × Value)) :
    k2 ∈ (JsonMap.assignEntries k v l).map Prod.fst ↔ k2 = k ∨ k2 ∈ l.map Prod.fst := by
  induction l with
  | nil => simp [JsonMap.assignEntries]
  | cons hd tl ih =>
    obtain ⟨k1, v1⟩ := hd
    by_cases h1 : k1 = k
    · subst h1
      simp [JsonMap.assignEntries]
    · simp only [JsonMap.assignEntries, h1, if_false, List.map_cons, List.mem_cons, ih]
      tauto

theorem JsonMap.mem_keys_assign (m : JsonMap) (k : String) (v : Value) (k2 : String) :
    k2 ∈ (m.assign k v).keys ↔ k2 = k ∨ k2 ∈ m.keys := by
  exact JsonMap.mem_keys_assignEntries k v k2 m.entries

theorem JsonMap.not_mem_keys_empty (k : String) : k ∉ JsonMap.empty.keys := by
  simp [JsonMap.empty, JsonMap.keys]

theorem JsonMap.mem_keys_iff_lookupEntries (k : String) (l : List (String × Value)) :
    k ∈ l.map Prod.fst ↔ JsonMap.lookupEntries k l ≠ none := by
  induction l with
  | nil => simp [JsonMap.lookupEntries]
  | cons hd tl ih =>
    obtain ⟨k1, v1⟩ := hd
    by_cases h1 : k1 = k
    · simp [JsonMap.lookupEntries, h1]
    · simp only [JsonMap.lookupEntries, h1, if_false, List.map_cons, List.mem_cons, ← ih]
      constructor
      · rintro (h | h)
        · exact absurd h.symm h1
        · exact h
      · exact Or.inr

/-- Assigning keeps the keys of the map distinct. -/
theorem JsonMap.nodup_keys_assign (m : JsonMap) (k : String) (v : Value)
    (h : m.keys.Nodup) : (m.assign k v).keys.Nodup := by
  obtain ⟨l⟩ := m
  simp only [JsonMap.keys, JsonMap.assign] at h ⊢
  induction l with
  | nil => simp [JsonMap.assignEntries]
  | cons hd tl ih =>
    obtain ⟨k1, v1⟩ := hd
    rw [List.map_cons, List.nodup_cons] at h
    by_cases h1 : k1 = k
    · subst h1
      simpa [JsonMap.assignEntries] using h
    · simp only [JsonMap.assignEntries, if_neg h1, List.map_cons, List.nodup_cons]
      refine ⟨fun hc => ?_, ih h.2⟩
      rcases (JsonMap.mem_keys_assignEntries k v k1 tl).1 hc with hc | hc
      · exact h1 hc
      · exact h.1 hc

/-- A key is in the map exactly when looking it up finds a value. -/
theorem JsonMap.mem_keys_iff_lookup (m : JsonMap) (k : String) :
    k ∈ m.keys ↔ m.lookup k ≠ none :=
  JsonMap.mem_keys_iff_lookupEntries k m.entries

/-! ## Lemmas on the retry loop -/

theorem World.log_posts (w : World) (level : LogLevel) (format : String) :
    (w.log level format).posts = w.posts := rfl

/-- One pass of the loop whose attempt is not a success: the POST is recorded
and the loop goes on with `time + 1`. -/
theorem sendAndRetryLoop_fail_step (me : PushyNotificationServer) (env : Env)
    (data : Bytes) (times time : Int) (w : World) (ht : time < times)
    (hf : attemptSucceeds me env w.posts (pushCall me data) = false) :
    ∃ w1 : World, w1.posts = w.posts ++ [pushCall me data] ∧
      sendAndRetryLoop me env data times time w =
        sendAndRetryLoop me env data times (time + 1) w1 := by
  rw [sendAndRetryLoop]
  simp only [ht, if_true, clientPost]
  unfold attemptSucceeds pushCall at hf
  cases hc : me.Client w.posts
      ⟨pushURL me.PushyPushSettings.SecretAPIKey, "application/json", data⟩ with
  | error e => exact ⟨_, rfl, rfl⟩
  | ok body =>
    rw [hc] at hf
    simp only at hf
    simp only [hf]
    exact ⟨_, rfl, rfl⟩

/-- One pass of the loop whose attempt is a success: the POST is recorded and
the loop returns `nil`. -/
theorem sendAndRetryLoop_success_step (me : PushyNotificationServer) (env : Env)
    (data : Bytes) (times time : Int) (w : World) (ht : time < times)
    (hs : attemptSucceeds me env w.posts (pushCall me data) = true) :
    (sendAndRetryLoop me env data times time w).1.posts = w.posts ++ [pushCall me data] ∧
    (sendAndRetryLoop me env data times time w).1.logs = w.logs ∧
    (sendAndRetryLoop me env data times time w).2 = none := by
  rw [sendAndRetryLoop]
  simp only [ht, if_true, clientPost]
  unfold attemptSucceeds pushCall at hs
  cases hc : me.Client w.posts
      ⟨pushURL me.PushyPushSettings.SecretAPIKey, "application/json", data⟩ with
  | error e => rw [hc] at hs; simp at hs
  | ok body =>
    rw [hc] at hs
    simp only at hs
    simp [hs, pushCall]

/-- The loop left at its bound: nothing is sent and the error is returned. -/
theorem sendAndRetryLoop_done (me : PushyNotificationServer) (env : Env)
    (data : Bytes) (times time : Int) (w : World) (ht : ¬ time < times) :
    sendAndRetryLoop me env data times time w = (w, some retriesExhausted) := by
  rw [sendAndRetryLoop]
  simp [ht]

/-- When every attempt fails the loop makes one POST per remaining value of
`time` and returns the error. -/
theorem sendAndRetryLoop_all_fail (me : PushyNotificationServer) (env : Env)
    (data : Bytes) (times : Int) (n : Nat) :
    ∀ (time : Int) (w : World), (times - time).toNat = n →
      (∀ j, j < n → attemptSucceeds me env
        (w.posts ++ List.replicate j (pushCall me data)) (pushCall me data) = false) →
      (sendAndRetryLoop me env data times time w).1.posts =
        w.posts ++ List.replicate n (pushCall me data) ∧
      (sendAndRetryLoop me env data times time w).2 = some retriesExhausted := by
  induction n with
  | zero =>
    intro time w hn _
    have ht : ¬ time < times := by omega
    simp [sendAndRetryLoop_done me env data times time w ht]
  | succ n ih =>
    intro time w hn hf
    have ht : time < times := by omega
    have h0 := hf 0 (Nat.succ_pos n)
    simp only [List.replicate_zero, List.append_nil] at h0
    obtain ⟨w1, hw1, hstep⟩ := sendAndRetryLoop_fail_step me env data times time w ht h0
    have hrest := ih (time + 1) w1 (by omega) (by
      intro j hj
      have := hf (j + 1) (by omega)
      simpa [hw1, List.replicate_succ] using this)
    rw [hstep, hrest.1, hrest.2, hw1]
    simp [List.replicate_succ]

/-- When the attempts fail until one succeeds within the bound, the loop stops
right after the successful POST and returns `nil`. -/
theorem sendAndRetryLoop_first_success (me : PushyNotificationServer) (env : Env)
    (data : Bytes) (times : Int) (m : Nat) :
    ∀ (time : Int) (w : World), time + m < times →
      (∀ j, j < m → attemptSucceeds me env
        (w.posts ++ List.replicate j (pushCall me data)) (pushCall me data) = false) →
      attemptSucceeds me env
        (w.posts ++ List.replicate m (pushCall me data)) (pushCall me data) = true →
      (sendAndRetryLoop me env data times time w).1.posts =
        w.posts ++ List.replicate (m + 1) (pushCall me data) ∧
      (sendAndRetryLoop me env data times time w).2 = none := by
  induction m with
  | zero =>
    intro time w ht _ hs
    simp only [List.replicate_zero, List.append_nil] at hs
    have h := sendAndRetryLoop_success_step me env data times time w (by omega) hs
    exact ⟨by simpa using h.1, h.2.2⟩
  | succ m ih =>
    intro time w ht hf hs
    have h0 := hf 0 (Nat.succ_pos m)
    simp only [List.replicate_zero, List.append_nil] at h0
    obtain ⟨w1, hw1, hstep⟩ :=
      sendAndRetryLoop_fail_step me env data times time w (by omega) h0
    have hrest := ih (time + 1) w1 (by push_cast at ht; omega) (by
      intro j hj
      have := hf (j + 1) (by omega)
      simpa [hw1, List.replicate_succ] using this) (by
      simpa [hw1, List.replicate_succ] using hs)
    rw [hstep, hrest.1, hrest.2, hw1]
    simp [List.replicate_succ]

/-- Whatever the gateway does, the loop only ever sends the same POST, at most
once per remaining value of `time`, and every POST but the last one was not a
success. -/
theorem sendAndRetryLoop_posts (me : PushyNotificationServer) (env : Env)
    (data : Bytes) (times : Int) (n : Nat) :
    ∀ (time : Int) (w : World), (times - time).toNat = n →
      ∃ k, k ≤ n ∧ (sendAndRetryLoop me env data times time w).1.posts =
          w.posts ++ List.replicate k (pushCall me data) ∧
        ∀ j, j + 1 < k → attemptSucceeds me env
          (w.posts ++ List.replicate j (pushCall me data)) (pushCall me data) = false := by
  induction n with
  | zero =>
    intro time w hn
    have ht : ¬ time < times := by omega
    exact ⟨0, le_refl 0, by simp [sendAndRetryLoop_done me env data times time w ht],
      fun j hj => absurd hj (by omega)⟩
  | succ n ih =>
    intro time w hn
    have ht : time < times := by omega
    cases hs : attemptSucceeds me env w.posts (pushCall me data) with
    | true =>
      have h := sendAndRetryLoop_success_step me env data times time w ht hs
      exact ⟨1, by omega, by simpa using h.1, fun j hj => absurd hj (by omega)⟩
    | false =>
      obtain ⟨w1, hw1, hstep⟩ := sendAndRetryLoop_fail_step me env data times time w ht hs
      obtain ⟨k, hk, hp, hprev⟩ := ih (time + 1) w1 (by omega)
      refine ⟨k + 1, by omega, by rw [hstep, hp, hw1]; simp [List.replicate_succ], ?_⟩
      intro j hj
      cases j with
      | zero => simpa using hs
      | succ j =>
        have := hprev j (by omega)
        simpa [hw1, List.replicate_succ] using this

/-- An enabled dispatcher marshals the payload, logs, runs `sendAndRetry` with
the bound 2 and maps its result. -/
theorem SendNotification_enabled (me : PushyNotificationServer) (env : Env)
    (msg : PushNotification) (w : World) (hen : me.PushyPushSettings.Enable = true) :
    SendNotification me env msg w =
      match sendAndRetry me env (env.jsonEncode (buildPayload env msg)) 2
        (w.log LogLevel.info
          "Sending pushy push notification for device=%v type=%v ackId=%v") with
      | (w2, some _) =>
        (w2.log LogLevel.error "Failed to send to pushy. err=%v",
          NewErrorPushResponse "failed to send")
      | (w2, none) => (w2, NewOkPushResponse) := by
  simp [SendNotification, hen, jsonMarshal]

/-! ## Readiness -/

/-- C1 (as stated, refuted): a disabled dispatcher with an empty SecretAPIKey is
reported not ready, although the claim has `Initialize` return true whenever
Enable is false. -/
theorem Initialize_disabled_empty_key :
    sampleDisabled.PushyPushSettings.Enable = false ∧
    sampleDisabled.PushyPushSettings.SecretAPIKey = "" ∧
    (Initialize sampleDisabled emptyWorld).2 = false := by
  decide

/-- C1 (amended): `Initialize` returns false exactly when SecretAPIKey is the
empty string and true in every other case; the Enable setting plays no part. -/
theorem Initialize_iff_key (me : PushyNotificationServer) (w : World) :
    ((Initialize me w).2 = false ↔ me.PushyPushSettings.SecretAPIKey = "") ∧
    ((Initialize me w).2 = true ↔ me.PushyPushSettings.SecretAPIKey ≠ "") := by
  unfold Initialize
  by_cases h : me.PushyPushSettings.SecretAPIKey = "" <;> simp [h]

/-! ## Sending -/

/-- C2: when Enable is false, `SendNotification` returns the OK response and
leaves the world as it was: no POST is made, whatever the request and the
gateway. -/
theorem SendNotification_disabled (me : PushyNotificationServer) (env : Env)
    (msg : PushNotification) (w : World) (h : me.PushyPushSettings.Enable = false) :
    SendNotification me env msg w = (w, NewOkPushResponse) ∧
    (SendNotification me env msg w).1.posts = w.posts := by
  simp [SendNotification, h]

/-- C2 at the disabled sample dispatcher. -/
theorem SendNotification_disabled_witness :
    sampleDisabled.PushyPushSettings.Enable = false ∧
    SendNotification sampleDisabled sampleEnv sampleMessage emptyWorld =
      (emptyWorld, NewOkPushResponse) :=
  ⟨rfl, (SendNotification_disabled sampleDisabled sampleEnv sampleMessage emptyWorld rfl).1⟩

/-- C3: when no attempt succeeds, `sendAndRetry` with the bound `times` makes
exactly max(times − 1, 0) POSTs and returns the retries-exhausted error, which
does not depend on what the attempts answered; and `SendNotification` of an
enabled dispatcher (bound 2) whose one attempt does not succeed makes exactly
one POST and returns the failure response "failed to send". -/
theorem sendAndRetry_all_fail (me : PushyNotificationServer) (env : Env) (w : World) :
    (∀ (data : Bytes) (times : Int),
      (∀ j, j < (times - 1).toNat → attemptSucceeds me env
        (w.posts ++ List.replicate j (pushCall me data)) (pushCall me data) = false) →
      (sendAndRetry me env data times w).1.posts =
        w.posts ++ List.replicate (times - 1).toNat (pushCall me data) ∧
      ((sendAndRetry me env data times w).1.posts.length : Int) - w.posts.length =
        max (times - 1) 0 ∧
      (sendAndRetry me env data times w).2 = some retriesExhausted) ∧
    (∀ msg : PushNotification, me.PushyPushSettings.Enable = true →
      attemptSucceeds me env w.posts
        (pushCall me (env.jsonEncode (buildPayload env msg))) = false →
      (SendNotification me env msg w).1.posts =
        w.posts ++ [pushCall me (env.jsonEncode (buildPayload env msg))] ∧
      (SendNotification me env msg w).2 = NewErrorPushResponse "failed to send") := by
  constructor
  · intro data times hf
    have h := sendAndRetryLoop_all_fail me env data times (times - 1).toNat 1 w rfl hf
    refine ⟨h.1, ?_, h.2⟩
    rw [sendAndRetry, h.1]
    simp only [List.length_append, List.length_replicate]
    push_cast
    omega
  · intro msg hen hf
    have h := sendAndRetryLoop_all_fail me env (env.jsonEncode (buildPayload env msg)) 2 1 1
      (w.log LogLevel.info "Sending pushy push notification for device=%v type=%v ackId=%v")
      (by decide) (by
        intro j hj
        have hj0 : j = 0 := by omega
        subst hj0
        simpa [World.log_posts] using hf)
    rw [SendNotification_enabled me env msg w hen, sendAndRetry]
    rcases hres : sendAndRetryLoop me env (env.jsonEncode (buildPayload env msg)) 2 1
      (w.log LogLevel.info "Sending pushy push notification for device=%v type=%v ackId=%v")
      with ⟨w2, e⟩
    rw [hres] at h
    obtain ⟨hp, he⟩ := h
    simp only at hp he
    subst he
    simp [World.log_posts, hp]

/-- C3 at an unreachable gateway: with the bound 3 two POSTs are made, and
`SendNotification` makes one POST and fails. -/
theorem sendAndRetry_all_fail_witness :
    ((sendAndRetry (sampleServer gatewayDown) sampleEnv [7] 3 emptyWorld).1.posts =
        emptyWorld.posts ++
          List.replicate (3 - 1 : Int).toNat (pushCall (sampleServer gatewayDown) [7]) ∧
      ((sendAndRetry (sampleServer gatewayDown) sampleEnv [7] 3 emptyWorld).1.posts.length
          : Int) - emptyWorld.posts.length = max (3 - 1) 0 ∧
      (sendAndRetry (sampleServer gatewayDown) sampleEnv [7] 3 emptyWorld).2 =
        some retriesExhausted) ∧
    (sampleServer gatewayDown).PushyPushSettings.Enable = true ∧
    (SendNotification (sampleServer gatewayDown) sampleEnv sampleMessage emptyWorld).2 =
      NewErrorPushResponse "failed to send" :=
  ⟨(sendAndRetry_all_fail (sampleServer gatewayDown) sampleEnv emptyWorld).1 [7] 3
      (fun _ _ => rfl),
    rfl,
    ((sendAndRetry_all_fail (sampleServer gatewayDown) sampleEnv emptyWorld).2
      sampleMessage rfl rfl).2⟩

/-- C4: if the k-th attempt (1 ≤ k ≤ times − 1) is the first that succeeds,
`sendAndRetry` makes exactly k POSTs and returns nil; whatever the gateway does,
every POST before the last one made was not a success, so nothing is sent after
a success; and `SendNotification` of an enabled dispatcher whose first attempt
succeeds makes exactly one POST and returns the OK response. -/
theorem sendAndRetry_first_success (me : PushyNotificationServer) (env : Env)
    (w : World) :
    (∀ (data : Bytes) (times : Int) (k : Nat), 1 ≤ k → (k : Int) ≤ times - 1 →
      (∀ j, j < k - 1 → attemptSucceeds me env
        (w.posts ++ List.replicate j (pushCall me data)) (pushCall me data) = false) →
      attemptSucceeds me env
        (w.posts ++ List.replicate (k - 1) (pushCall me data)) (pushCall me data) = true →
      (sendAndRetry me env data times w).1.posts =
        w.posts ++ List.replicate k (pushCall me data) ∧
      (sendAndRetry me env data times w).1.posts.length = w.posts.length + k ∧
      (sendAndRetry me env data times w).2 = none) ∧
    (∀ (data : Bytes) (times : Int), ∃ n : Nat,
      (sendAndRetry me env data times w).1.posts =
        w.posts ++ List.replicate n (pushCall me data) ∧
      ∀ j, j + 1 < n → attemptSucceeds me env
        (w.posts ++ List.replicate j (pushCall me data)) (pushCall me data) = false) ∧
    (∀ msg : PushNotification, me.PushyPushSettings.Enable = true →
      attemptSucceeds me env w.posts
        (pushCall me (env.jsonEncode (buildPayload env msg))) = true →
      (SendNotification me env msg w).1.posts =
        w.posts ++ [pushCall me (env.jsonEncode (buildPayload env msg))] ∧
      (SendNotification me env msg w).2 = NewOkPushResponse) := by
  refine ⟨?_, ?_, ?_⟩
  · intro data times k hk1 hk2 hf hs
    have h := sendAndRetryLoop_first_success me env data times (k - 1) 1 w
      (by push_cast [Nat.cast_sub hk1]; omega) hf hs
    have hk : k - 1 + 1 = k := by omega
    rw [hk] at h
    refine ⟨h.1, ?_, h.2⟩
    rw [sendAndRetry, h.1]
    simp
  · intro data times
    obtain ⟨n, _, hp, hprev⟩ :=
      sendAndRetryLoop_posts me env data times (times - 1).toNat 1 w rfl
    exact ⟨n, hp, hprev⟩
  · intro msg hen hs
    have h := sendAndRetryLoop_first_success me env
      (env.jsonEncode (buildPayload env msg)) 2 0 1
      (w.log LogLevel.info "Sending pushy push notification for device=%v type=%v ackId=%v")
      (by decide) (fun j hj => absurd hj (by omega))
      (by simpa [World.log_posts] using hs)
    rw [SendNotification_enabled me env msg w hen, sendAndRetry]
    rcases hres : sendAndRetryLoop me env (env.jsonEncode (buildPayload env msg)) 2 1
      (w.log LogLevel.info "Sending pushy push notification for device=%v type=%v ackId=%v")
      with ⟨w2, e⟩
    rw [hres] at h
    obtain ⟨hp, he⟩ := h
    simp only at hp he
    subst he
    simp [World.log_posts, hp]

/-- C4 at a gateway that rejects the first push and accepts the second: with
the bound 3 exactly two POSTs are made; and at a gateway that accepts at once,
`SendNotification` returns the OK response. -/
theorem sendAndRetry_first_success_witness :
    (1 ≤ 2 ∧ ((2 : Nat) : Int) ≤ 3 - 1 ∧
      (sendAndRetry (sampleServer gatewaySecond) sampleEnv [7] 3 emptyWorld).1.posts =
        emptyWorld.posts ++ List.replicate 2 (pushCall (sampleServer gatewaySecond) [7]) ∧
      (sendAndRetry (sampleServer gatewaySecond) sampleEnv [7] 3 emptyWorld).2 = none) ∧
    (sampleServer gatewayOk).PushyPushSettings.Enable = true ∧
    (SendNotification (sampleServer gatewayOk) sampleEnv sampleMessage emptyWorld).2 =
      NewOkPushResponse :=
  ⟨⟨by decide, by decide,
      ((sendAndRetry_first_success (sampleServer gatewaySecond) sampleEnv emptyWorld).1
        [7] 3 2 (by decide) (by decide)
        (fun j hj => by
          have hj0 : j = 0 := by omega
          subst hj0
          decide)
        (by decide)).1,
      ((sendAndRetry_first_success (sampleServer gatewaySecond) sampleEnv emptyWorld).1
        [7] 3 2 (by decide) (by decide)
        (fun j hj => by
          have hj0 : j = 0 := by omega
          subst hj0
          decide)
        (by decide)).2.2⟩,
    rfl,
    ((sendAndRetry_first_success (sampleServer gatewayOk) sampleEnv emptyWorld).2.2
      sampleMessage rfl (by decide)).2⟩


/-! ## Payload construction -/

/-- C5: for a request with IsIDLoaded = true, whatever its type, the payload data
holds post_id, message (the raw text), sender_id and team_id of the request,
id_loaded = true and sender_name = "Someone", and has none of the keys
override_username, override_icon_url, from_webhook, channel_name. -/
theorem buildPayload_idLoaded (env : Env) (msg : PushNotification)
    (h : msg.IsIDLoaded = true) :
    (buildPayload env msg).Body.lookup "post_id" = some (Value.str msg.PostID) ∧
    (buildPayload env msg).Body.lookup "message" = some (Value.str msg.Message) ∧
    (buildPayload env msg).Body.lookup "sender_id" = some (Value.str msg.SenderID) ∧
    (buildPayload env msg).Body.lookup "team_id" = some (Value.str msg.TeamID) ∧
    (buildPayload env msg).Body.lookup "id_loaded" = some (Value.bool true) ∧
    (buildPayload env msg).Body.lookup "sender_name" = some (Value.str "Someone") ∧
    (buildPayload env msg).Body.lookup "override_username" = none ∧
    (buildPayload env msg).Body.lookup "override_icon_url" = none ∧
    (buildPayload env msg).Body.lookup "from_webhook" = none ∧
    (buildPayload env msg).Body.lookup "channel_name" = none := by
  simp only [buildPayload, h, if_true]
  split_ifs <;> simp [JsonMap.lookup_assign, JsonMap.lookup_empty]

/-- C5 at the pre-loaded sample: the raw message text is sent. -/
theorem buildPayload_idLoaded_witness :
    sampleIdLoaded.IsIDLoaded = true ∧
    (buildPayload sampleEnv sampleIdLoaded).Body.lookup "message" =
      some (Value.str "hello :smile:") ∧
    (buildPayload sampleEnv sampleIdLoaded).Body.lookup "sender_name" =
      some (Value.str "Someone") :=
  ⟨rfl, (buildPayload_idLoaded sampleEnv sampleIdLoaded rfl).2.1,
    (buildPayload_idLoaded sampleEnv sampleIdLoaded rfl).2.2.2.2.2.1⟩

/-- C6: for a request of type message or session that is not pre-loaded, the
payload data holds message = emojiSprint(Message), and team_id, sender_id,
sender_name, channel_name, channel_id, post_id, override_username,
override_icon_url and from_webhook equal to the request's fields, and has no
id_loaded key. -/
theorem buildPayload_message (env : Env) (msg : PushNotification)
    (ht : msg.Type_ = PushTypeMessage ∨ msg.Type_ = PushTypeSession)
    (h : msg.IsIDLoaded = false) :
    (buildPayload env msg).Body.lookup "message" =
      some (Value.str (env.emojiSprint msg.Message)) ∧
    (buildPayload env msg).Body.lookup "team_id" = some (Value.str msg.TeamID) ∧
    (buildPayload env msg).Body.lookup "sender_id" = some (Value.str msg.SenderID) ∧
    (buildPayload env msg).Body.lookup "sender_name" = some (Value.str msg.SenderName) ∧
    (buildPayload env msg).Body.lookup "channel_name" = some (Value.str msg.ChannelName) ∧
    (buildPayload env msg).Body.lookup "channel_id" = some (Value.str msg.ChannelID) ∧
    (buildPayload env msg).Body.lookup "post_id" = some (Value.str msg.PostID) ∧
    (buildPayload env msg).Body.lookup "override_username" =
      some (Value.str msg.OverrideUsername) ∧
    (buildPayload env msg).Body.lookup "override_icon_url" =
      some (Value.str msg.OverrideIconURL) ∧
    (buildPayload env msg).Body.lookup "from_webhook" = some (Value.str msg.FromWebhook) ∧
    (buildPayload env msg).Body.lookup "id_loaded" = none ∧
    "id_loaded" ∉ (buildPayload env msg).Body.keys := by
  rw [JsonMap.mem_keys_iff_lookup]
  simp only [buildPayload, h, eq_true ht, Bool.false_eq_true, if_false, if_true]
  split_ifs <;> simp [JsonMap.lookup_assign, JsonMap.lookup_empty]

/-- C6 at the message sample: the expanded text is sent. -/
theorem buildPayload_message_witness :
    (sampleMessage.Type_ = PushTypeMessage ∨ sampleMessage.Type_ = PushTypeSession) ∧
    sampleMessage.IsIDLoaded = false ∧
    (buildPayload sampleEnv sampleMessage).Body.lookup "message" =
      some (Value.str (sampleEnv.emojiSprint "hello :smile:")) :=
  ⟨Or.inl rfl, rfl, (buildPayload_message sampleEnv sampleMessage (Or.inl rfl) rfl).1⟩

/-- C7: for a request that is not pre-loaded and whose type is neither message
nor session, the keys of the payload data are exactly ack_id, type, version,
channel_id, is_crt_enabled, server_id, together with badge when Badge is not −1
and root_id when RootID is not empty. -/
theorem buildPayload_other_keys (env : Env) (msg : PushNotification)
    (ht1 : msg.Type_ ≠ PushTypeMessage) (ht2 : msg.Type_ ≠ PushTypeSession)
    (h : msg.IsIDLoaded = false) (k : String) :
    k ∈ (buildPayload env msg).Body.keys ↔
      k ∈ ["ack_id", "type", "version", "channel_id", "is_crt_enabled", "server_id"] ∨
      (k = "badge" ∧ msg.Badge ≠ -1) ∨ (k = "root_id" ∧ msg.RootID ≠ "") := by
  simp only [buildPayload, h, ht1, ht2, or_self, Bool.false_eq_true, if_false]
  split_ifs with hb hr hr <;>
    simp only [JsonMap.mem_keys_assign, JsonMap.not_mem_keys_empty, List.mem_cons,
      List.mem_singleton, List.not_mem_nil, or_false] <;>
    tauto

/-- C7 at the badge-clearing sample: the key message is absent, root_id present. -/
theorem buildPayload_other_keys_witness :
    sampleClear.Type_ ≠ PushTypeMessage ∧ sampleClear.Type_ ≠ PushTypeSession ∧
    sampleClear.IsIDLoaded = false ∧
    ("message" ∈ (buildPayload sampleEnv sampleClear).Body.keys ↔
      "message" ∈ ["ack_id", "type", "version", "channel_id", "is_crt_enabled",
        "server_id"] ∨
      ("message" = "badge" ∧ sampleClear.Badge ≠ -1) ∨
      ("message" = "root_id" ∧ sampleClear.RootID ≠ "")) :=
  ⟨by decide, by decide, rfl,
    buildPayload_other_keys sampleEnv sampleClear (by decide) (by decide) rfl "message"⟩

/-- C8: the payload data has the key badge exactly when the request's Badge is
not −1, and then its value is the request's Badge, whatever the type and
IsIDLoaded. -/
theorem buildPayload_badge (env : Env) (msg : PushNotification) :
    ("badge" ∈ (buildPayload env msg).Body.keys ↔ msg.Badge ≠ -1) ∧
    (buildPayload env msg).Body.lookup "badge" =
      if msg.Badge = -1 then none else some (Value.int msg.Badge) := by
  rw [JsonMap.mem_keys_iff_lookup]
  simp only [buildPayload]
  split_ifs <;> simp_all [JsonMap.lookup_assign, JsonMap.lookup_empty]

/-- C9: the payload data has the key root_id exactly when the request's RootID
is not the empty string, and then its value is the request's RootID, whatever
the type and IsIDLoaded. -/
theorem buildPayload_rootID (env : Env) (msg : PushNotification) :
    ("root_id" ∈ (buildPayload env msg).Body.keys ↔ msg.RootID ≠ "") ∧
    (buildPayload env msg).Body.lookup "root_id" =
      if msg.RootID = "" then none else some (Value.str msg.RootID) := by
  rw [JsonMap.mem_keys_iff_lookup]
  simp only [buildPayload]
  split_ifs <;> simp_all [JsonMap.lookup_assign, JsonMap.lookup_empty]

/-- C10: for an enabled dispatcher, in every branch, the payload's device
identifier is the request's DeviceID and its data holds ack_id, type, version,
channel_id, is_crt_enabled and server_id with the request's AckID, Type,
Version, ChannelID, IsCRTEnabled and ServerID; and every POST that
`SendNotification` makes carries the encoding of this payload. -/
theorem buildPayload_base (me : PushyNotificationServer) (env : Env)
    (msg : PushNotification) (w : World) (hen : me.PushyPushSettings.Enable = true) :
    (buildPayload env msg).DeviceId = msg.DeviceID ∧
    (buildPayload env msg).Body.lookup "ack_id" = some (Value.str msg.AckID) ∧
    (buildPayload env msg).Body.lookup "type" = some (Value.str msg.Type_) ∧
    (buildPayload env msg).Body.lookup "version" = some (Value.str msg.Version) ∧
    (buildPayload env msg).Body.lookup "channel_id" = some (Value.str msg.ChannelID) ∧
    (buildPayload env msg).Body.lookup "is_crt_enabled" =
      some (Value.bool msg.IsCRTEnabled) ∧
    (buildPayload env msg).Body.lookup "server_id" = some (Value.str msg.ServerID) ∧
    ∃ k, k ≤ 1 ∧ (SendNotification me env msg w).1.posts =
      w.posts ++ List.replicate k (pushCall me (env.jsonEncode (buildPayload env msg))) := by
  refine ⟨rfl, ?_, ?_, ?_, ?_, ?_, ?_, ?_⟩
  iterate 6
    simp only [buildPayload]
    split_ifs <;> simp [JsonMap.lookup_assign, JsonMap.lookup_empty]
  obtain ⟨k, hk, hp, _⟩ := sendAndRetryLoop_posts me env
    (env.jsonEncode (buildPayload env msg)) 2 1 1
    (w.log LogLevel.info "Sending pushy push notification for device=%v type=%v ackId=%v")
    (by decide)
  refine ⟨k, hk, ?_⟩
  rw [SendNotification_enabled me env msg w hen, sendAndRetry]
  rcases hres : sendAndRetryLoop me env (env.jsonEncode (buildPayload env msg)) 2 1
    (w.log LogLevel.info "Sending pushy push notification for device=%v type=%v ackId=%v")
    with ⟨w2, e⟩
  rw [hres] at hp
  simp only [World.log_posts] at hp
  cases e <;> simp [World.log_posts, hp]

/-- C10 at the pre-loaded sample sent by an enabled dispatcher. -/
theorem buildPayload_base_witness :
    (sampleServer gatewayOk).PushyPushSettings.Enable = true ∧
    (buildPayload sampleEnv sampleIdLoaded).DeviceId = "dev1" ∧
    (buildPayload sampleEnv sampleIdLoaded).Body.lookup "ack_id" =
      some (Value.str "ack1") :=
  ⟨rfl, (buildPayload_base (sampleServer gatewayOk) sampleEnv sampleIdLoaded emptyWorld rfl).1,
    (buildPayload_base (sampleServer gatewayOk) sampleEnv sampleIdLoaded emptyWorld rfl).2.1⟩

end PushProxy
